import Mathlib

/-!
Shallow embedding of the `js-play-ground` repository: the `Logger` utility
(`src/js/utils/logger.js`, mirrored in `src/unnamed/part_003`), the main entry
point's DOM glue (`src/js/main.js`), the pure example functions
(`variablesExample`, `functionsExample`, `arraysExample`) and the vite dev
server configuration (`vite.config.js`).

JavaScript values that flow through the code (log payloads, the objects built
in the examples) are modelled by the inductive `JsValue`.  DOM side effects are
modelled by an explicit association list from element ids to text content.
`Date().toISOString()` is nondeterministic, so every operation that reads the
clock takes the produced timestamp string as an explicit argument.
-/

/-- A JavaScript value, as used by the playground code: `null`, booleans,
(integer) numbers, strings, arrays, and plain objects (ordered field lists). -/
inductive JsValue where
  | null
  | bool (b : Bool)
  | num (n : Int)
  | str (s : String)
  | arr (elems : List JsValue)
  | obj (fields : List (String × JsValue))

/-- JSON string escaping as performed by `JSON.stringify` for the characters
that can occur in this repository's strings. -/
def jsonEscapeChar (c : Char) : String :=
  if c = '"' then "\\\""
  else if c = '\\' then "\\\\"
  else if c = '\n' then "\\n"
  else if c = '\r' then "\\r"
  else if c = '\t' then "\\t"
  else String.singleton c

/-- Quote a string as a JSON string literal. -/
def jsonQuote (s : String) : String :=
  "\"" ++ String.join (s.data.map jsonEscapeChar) ++ "\""

/-- Assemble the rendered items of a JSON array or object.  `step` is the
indentation unit (`""` for compact `JSON.stringify(v)`, two spaces for
`JSON.stringify(v, null, 2)`), `pre` the indentation of the opening bracket. -/
def jsonWrap (step pre openB closeB : String) (items : List String) : String :=
  if items.isEmpty then openB ++ closeB
  else if step.isEmpty then openB ++ String.intercalate "," items ++ closeB
  else
    openB ++ "\n" ++
      String.intercalate ",\n" (items.map (fun s => pre ++ step ++ s)) ++
      "\n" ++ pre ++ closeB

mutual

/-- `JSON.stringify` on a `JsValue`: compact when `step = ""`, pretty-printed
with indentation unit `step` otherwise (`pre` is the current indentation). -/
def jsonRender (step pre : String) : JsValue → String
  | .null => "null"
  | .bool b => cond b "true" "false"
  | .num n => toString n
  | .str s => jsonQuote s
  | .arr es => jsonWrap step pre "[" "]" (jsonRenderList step (pre ++ step) es)
  | .obj fs => jsonWrap step pre "\x7b" "\x7d" (jsonRenderFields step (pre ++ step) fs)

/-- Render the elements of a JSON array at indentation `pre`. -/
def jsonRenderList (step pre : String) : List JsValue → List String
  | [] => []
  | v :: vs => jsonRender step pre v :: jsonRenderList step pre vs

/-- Render the fields of a JSON object at indentation `pre`. -/
def jsonRenderFields (step pre : String) : List (String × JsValue) → List String
  | [] => []
  | (k, v) :: fs =>
      (jsonQuote k ++ (if step.isEmpty then ":" else ": ") ++ jsonRender step pre v)
        :: jsonRenderFields step pre fs

end

/-- `JSON.stringify(v)` (compact). -/
def jsonStringify (v : JsValue) : String := jsonRender "" "" v

/-- `JSON.stringify(v, null, 2)` (two-space indentation). -/
def jsonStringify2 (v : JsValue) : String := jsonRender "  " "" v

mutual

/-- JavaScript string coercion `String(v)` / template-literal interpolation:
arrays join their elements with `","`, plain objects print `[object Object]`. -/
def jsToString : JsValue → String
  | .null => "null"
  | .bool b => cond b "true" "false"
  | .num n => toString n
  | .str s => s
  | .arr es => String.intercalate "," (jsToStringList es)
  | .obj _ => "[object Object]"

/-- Coerce each element of a JS array to a string. -/
def jsToStringList : List JsValue → List String
  | [] => []
  | v :: vs => jsToString v :: jsToStringList vs

end

/-- The JavaScript `typeof` operator on the values modelled here (`typeof`
of an array, an object and `null` is `"object"`). -/
def jsTypeof : JsValue → String
  | .null => "object"
  | .bool _ => "boolean"
  | .num _ => "number"
  | .str _ => "string"
  | .arr _ => "object"
  | .obj _ => "object"

/-- `Array.isArray`. -/
def jsIsArray : JsValue → Bool
  | .arr _ => true
  | _ => false

/-- Property access `v[k]` on a plain object (missing key reads as `null`,
standing for `undefined`). -/
def jsGet (v : JsValue) (k : String) : JsValue :=
  match v with
  | .obj fs => ((fs.find? (fun kv => kv.1 == k)).map (fun kv => kv.2)).getD .null
  | _ => .null

/-- Numeric property access, for the `user.age` comparisons in the examples. -/
def jsGetInt (v : JsValue) (k : String) : Int :=
  match jsGet v k with
  | .num n => n
  | _ => 0

/-- `Object.keys`. -/
def jsObjectKeys : JsValue → List String
  | .obj fs => fs.map (fun kv => kv.1)
  | _ => []

/-- `Object.values`. -/
def jsObjectValues : JsValue → List JsValue
  | .obj fs => fs.map (fun kv => kv.2)
  | _ => []

/-- `Object.entries`, as the JS array of `[key, value]` pairs. -/
def jsObjectEntries : JsValue → JsValue
  | .obj fs => .arr (fs.map (fun kv => .arr [.str kv.1, kv.2]))
  | _ => .arr []

/-!  The Logger (`src/unnamed/part_003`, lines 223-412).  Console and HTML
mirroring (`logToConsole`, `logToHTML`, `addToHTMLOutput`) are write-only
side channels that no stored state depends on; the persistent state is the
`logs` array and the `maxLogs` capacity. -/

/-- One log record, exactly the fields built by `Logger.log`:
`{ timestamp, level, message, section, data }`. -/
structure LogEntry where
  timestamp : String
  level : String
  message : String
  «section» : String
  data : JsValue

/-- The log entry object literal built inside `Logger.log`.  The JS default
parameters `section = 'general'` and `data = null` are modelled by `Option`
arguments: `none` is an omitted argument, which the defaults replace. -/
def mkLogEntry (timestamp level message : String)
    (sect? : Option String) (data? : Option JsValue) : LogEntry :=
  { timestamp := timestamp
    level := level
    message := message
    «section» := sect?.getD "general"
    data := data?.getD .null }

/-- The persistent state of a `Logger` instance: the `logs` array and the
`maxLogs` capacity field. -/
structure Logger where
  logs : List LogEntry
  maxLogs : Nat

/-- `new Logger()`: empty list, `maxLogs = 100`. -/
def Logger.new : Logger := { logs := [], maxLogs := 100 }

/-- `Logger.log(level, message, section = 'general', data = null)` restricted
to its effect on the stored state: push the new entry, then
`if (this.logs.length > this.maxLogs) this.logs.shift()`.  The timestamp
produced by `new Date().toISOString()` is passed in explicitly. -/
def Logger.log (st : Logger) (timestamp level message : String)
    (sect? : Option String) (data? : Option JsValue) : Logger :=
  let logEntry := mkLogEntry timestamp level message sect? data?
  let logs1 := st.logs ++ [logEntry]
  if logs1.length > st.maxLogs then
    { st with logs := logs1.tail }
  else
    { st with logs := logs1 }

/-- `Logger.info(message, section = 'general', data = null)`. -/
def Logger.info (st : Logger) (timestamp message : String)
    (sect? : Option String) (data? : Option JsValue) : Logger :=
  st.log timestamp "info" message sect? data?

/-- `Logger.warn(message, section = 'general', data = null)`. -/
def Logger.warn (st : Logger) (timestamp message : String)
    (sect? : Option String) (data? : Option JsValue) : Logger :=
  st.log timestamp "warn" message sect? data?

/-- `Logger.error(message, section = 'general', data = null)`. -/
def Logger.error (st : Logger) (timestamp message : String)
    (sect? : Option String) (data? : Option JsValue) : Logger :=
  st.log timestamp "error" message sect? data?

/-- `Logger.debug(message, section = 'general', data = null)`. -/
def Logger.debug (st : Logger) (timestamp message : String)
    (sect? : Option String) (data? : Option JsValue) : Logger :=
  st.log timestamp "debug" message sect? data?

/-- `Logger.clear()` restricted to the stored state: `this.logs = []`. -/
def Logger.clear (st : Logger) : Logger := { st with logs := [] }

/-- `Logger.getLogs()`: `return [...this.logs]` (the aliasing aspect of the
spread copy is modelled separately by the heap model below). -/
def Logger.getLogs (st : Logger) : List LogEntry := st.logs

/-- `Logger.getLogsForSection(section)`:
`this.logs.filter(log => log.section === section)`. -/
def Logger.getLogsForSection (st : Logger) (sect : String) : List LogEntry :=
  st.logs.filter (fun l => l.«section» == sect)

/-- A log entry as the JS object `JSON.stringify` serialises. -/
def entryToJson (e : LogEntry) : JsValue :=
  .obj [("timestamp", .str e.timestamp), ("level", .str e.level),
        ("message", .str e.message), ("section", .str e.«section»),
        ("data", e.data)]

/-- `Logger.exportLogs()`: `JSON.stringify(this.logs, null, 2)`. -/
def Logger.exportLogs (st : Logger) : String :=
  jsonStringify2 (.arr (st.logs.map entryToJson))

/-!  Operation sequences on the logger, for reachability reasoning. -/

/-- One call on the logger's mutating interface.  Each constructor carries the
arguments of the JS call, plus the timestamp the call reads from the clock. -/
inductive LoggerOp where
  | log (timestamp level message : String) (sect? : Option String) (data? : Option JsValue)
  | info (timestamp message : String) (sect? : Option String) (data? : Option JsValue)
  | warn (timestamp message : String) (sect? : Option String) (data? : Option JsValue)
  | error (timestamp message : String) (sect? : Option String) (data? : Option JsValue)
  | debug (timestamp message : String) (sect? : Option String) (data? : Option JsValue)
  | clear

/-- Apply one logger call to a logger state. -/
def LoggerOp.apply (st : Logger) : LoggerOp → Logger
  | .log timestamp level message sect? data? => st.log timestamp level message sect? data?
  | .info timestamp message sect? data? => st.info timestamp message sect? data?
  | .warn timestamp message sect? data? => st.warn timestamp message sect? data?
  | .error timestamp message sect? data? => st.error timestamp message sect? data?
  | .debug timestamp message sect? data? => st.debug timestamp message sect? data?
  | .clear => st.clear

/-- The logger state after running a sequence of calls from `new Logger()`. -/
def applyOps (ops : List LoggerOp) : Logger :=
  ops.foldl LoggerOp.apply Logger.new

/-- The state invariant of a logger instance: the capacity field is the
constructor's 100 and the stored list never exceeds it. -/
def Logger.Inv (st : Logger) : Prop :=
  st.maxLogs = 100 ∧ st.logs.length ≤ st.maxLogs

/-- `Logger.log` does not change the capacity field. -/
theorem Logger.log_maxLogs (st : Logger) (timestamp level message : String)
    (sect? : Option String) (data? : Option JsValue) :
    (st.log timestamp level message sect? data?).maxLogs = st.maxLogs := by
  simp only [Logger.log]
  split <;> rfl

/-- After `Logger.log`, the list length is `min (length + 1) maxLogs` when the
invariant held, hence still at most `maxLogs`. -/
theorem Logger.log_length_le (st : Logger) (h : st.logs.length ≤ st.maxLogs)
    (timestamp level message : String)
    (sect? : Option String) (data? : Option JsValue) :
    (st.log timestamp level message sect? data?).logs.length ≤ st.maxLogs := by
  simp only [Logger.log]
  split
  · simp_all
  · simp_all

/-- Every single logger call preserves the state invariant. -/
theorem LoggerOp.apply_inv (st : Logger) (op : LoggerOp) (h : st.Inv) :
    (op.apply st).Inv := by
  obtain ⟨h1, h2⟩ := h
  cases op with
  | clear => exact ⟨h1, by simp [Logger.clear, LoggerOp.apply]⟩
  | log timestamp level message sect? data? =>
      exact ⟨by rw [LoggerOp.apply, Logger.log_maxLogs]; exact h1,
        by rw [LoggerOp.apply, Logger.log_maxLogs]; exact st.log_length_le h2 ..⟩
  | info timestamp message sect? data? =>
      exact ⟨by rw [LoggerOp.apply, Logger.info, Logger.log_maxLogs]; exact h1,
        by rw [LoggerOp.apply, Logger.info, Logger.log_maxLogs]; exact st.log_length_le h2 ..⟩
  | warn timestamp message sect? data? =>
      exact ⟨by rw [LoggerOp.apply, Logger.warn, Logger.log_maxLogs]; exact h1,
        by rw [LoggerOp.apply, Logger.warn, Logger.log_maxLogs]; exact st.log_length_le h2 ..⟩
  | error timestamp message sect? data? =>
      exact ⟨by rw [LoggerOp.apply, Logger.error, Logger.log_maxLogs]; exact h1,
        by rw [LoggerOp.apply, Logger.error, Logger.log_maxLogs]; exact st.log_length_le h2 ..⟩
  | debug timestamp message sect? data? =>
      exact ⟨by rw [LoggerOp.apply, Logger.debug, Logger.log_maxLogs]; exact h1,
        by rw [LoggerOp.apply, Logger.debug, Logger.log_maxLogs]; exact st.log_length_le h2 ..⟩

/-- Folding any call sequence over a state satisfying the invariant stays
within the invariant. -/
theorem foldl_apply_inv (ops : List LoggerOp) (st : Logger) (h : st.Inv) :
    (ops.foldl LoggerOp.apply st).Inv := by
  induction ops generalizing st with
  | nil => exact h
  | cons op ops ih => exact ih _ (LoggerOp.apply_inv st op h)

/-- Every state reached from `new Logger()` satisfies the invariant. -/
theorem applyOps_inv (ops : List LoggerOp) : (applyOps ops).Inv :=
  foldl_apply_inv ops Logger.new ⟨rfl, by simp [Logger.new]⟩

/-- The entry stored by `Logger.log` is the new entry, at the end of the list
(the capacity must be positive for the entry to survive the shift; the real
logger has capacity 100). -/
theorem Logger.log_getLast (st : Logger) (hpos : 0 < st.maxLogs)
    (timestamp level message : String)
    (sect? : Option String) (data? : Option JsValue) :
    (st.log timestamp level message sect? data?).logs.getLast? =
      some (mkLogEntry timestamp level message sect? data?) := by
  simp only [Logger.log]
  split
  next h =>
    have hcons : st.logs ≠ [] := by
      intro hnil
      rw [hnil] at h
      simp at h
      omega
    obtain ⟨a, l, heq⟩ := List.exists_cons_of_ne_nil hcons
    rw [heq]
    simp
  next h => simp

/-!  Heap model of the observer methods.  JS arrays are mutable references;
`getLogs` returns `[...this.logs]`, a *fresh* array, while `this.logs` stays
in place.  To state that, a minimal heap of arrays is made explicit: a heap is
a list of array cells, a reference is an index, and `getLogs` /
`getLogsForSection` allocate a new cell (the spread copy / the array `filter`
returns), leaving the logger's own cell untouched. -/

/-- A heap of JS arrays of log entries; a reference is an index into it. -/
abbrev JsHeap := List (List LogEntry)

/-- Dereference an array (an out-of-range reference reads as `[]`; all
references used are in range). -/
def heapRead (h : JsHeap) (r : Nat) : List LogEntry := (h[r]?).getD []

/-- In-place mutation of the array behind a reference. -/
def heapWrite (h : JsHeap) (r : Nat) (v : List LogEntry) : JsHeap := List.set h r v

/-- Allocate a fresh array, returning its reference and the new heap. -/
def heapAlloc (h : JsHeap) (v : List LogEntry) : Nat × JsHeap :=
  (List.length h, h ++ [v])

/-- A logger instance in the heap model: a reference to its `logs` array. -/
structure LoggerRef where
  logsRef : Nat

/-- `Logger.getLogs()` in the heap model: `return [...this.logs]` allocates a
fresh array holding a copy of the stored entries. -/
def LoggerRef.getLogs (lg : LoggerRef) (h : JsHeap) : Nat × JsHeap :=
  heapAlloc h (heapRead h lg.logsRef)

/-- `Logger.getLogsForSection(section)` in the heap model: `Array.filter`
allocates a fresh array holding the matching entries. -/
def LoggerRef.getLogsForSection (lg : LoggerRef) (sect : String) (h : JsHeap) :
    Nat × JsHeap :=
  heapAlloc h ((heapRead h lg.logsRef).filter (fun l => l.«section» == sect))

/-- `Logger.exportLogs()` in the heap model: `JSON.stringify(this.logs, null, 2)`
reads the stored array and allocates no log array. -/
def LoggerRef.exportLogs (lg : LoggerRef) (h : JsHeap) : String × JsHeap :=
  (jsonStringify2 (.arr ((heapRead h lg.logsRef).map entryToJson)), h)

/-- Allocation does not disturb an existing cell. -/
theorem heapRead_alloc (h : JsHeap) (v : List LogEntry) (r : Nat)
    (hr : r < List.length h) : heapRead (heapAlloc h v).2 r = heapRead h r := by
  simp only [heapRead, heapAlloc]
  rw [List.getElem?_append_left hr]

/-- Reading the freshly allocated cell gives the allocated value. -/
theorem heapRead_alloc_new (h : JsHeap) (v : List LogEntry) :
    heapRead (heapAlloc h v).2 (heapAlloc h v).1 = v := by
  simp only [heapRead, heapAlloc]
  rw [List.getElem?_concat_length]
  rfl

/-- Writing one cell leaves every other cell unchanged. -/
theorem heapRead_write_ne (h : JsHeap) (r r' : Nat) (v : List LogEntry)
    (hne : r' ≠ r) : heapRead (heapWrite h r' v) r = heapRead h r := by
  simp only [heapRead, heapWrite]
  rw [List.getElem?_set_ne hne]

/-!  The DOM, as seen by `updateOutput` (`src/js/main.js`, lines 12-23): an
ordered list of `(id, textContent)` pairs.  `document.getElementById` returns
the first element with the id; mutating `element.textContent` updates that
element in place.  The transient `updated` CSS class that `updateOutput` also
toggles (and removes again after 500 ms) carries no persistent state and is
not modelled. -/

/-- The modelled DOM: element ids with their text content. -/
abbrev Dom := List (String × String)

/-- `document.getElementById(elementId)`, yielding its `textContent`. -/
def getElementById (dom : Dom) (elementId : String) : Option String :=
  (List.find? (fun p => p.1 == elementId) dom).map (fun p => p.2)

/-- `element.textContent = content` on the first element with the given id. -/
def setTextContent : Dom → String → String → Dom
  | [], _, _ => []
  | (i, t) :: rest, elementId, content =>
      if i == elementId then (i, content) :: rest
      else (i, t) :: setTextContent rest elementId content

/-- `updateOutput(elementId, content)`: look the element up; if it exists,
set its text content, otherwise do nothing. -/
def updateOutput (dom : Dom) (elementId content : String) : Dom :=
  match getElementById dom elementId with
  | some _ => setTextContent dom elementId content
  | none => dom

/-- When the element is absent, `updateOutput` is the identity. -/
theorem updateOutput_none (dom : Dom) (elementId content : String)
    (h : getElementById dom elementId = none) :
    updateOutput dom elementId content = dom := by
  simp [updateOutput, h]

/-- Setting the text content of an existing element makes `getElementById`
return the new content. -/
theorem getElementById_setTextContent (dom : Dom) (elementId content t : String)
    (h : getElementById dom elementId = some t) :
    getElementById (setTextContent dom elementId content) elementId = some content := by
  induction dom with
  | nil => simp [getElementById] at h
  | cons p rest ih =>
      obtain ⟨i, t'⟩ := p
      by_cases hi : i == elementId
      · simp [setTextContent, hi, getElementById, List.find?]
      · rw [Bool.not_eq_true] at hi
        simp only [getElementById, List.find?, hi] at h
        simp only [setTextContent, hi, if_false, Bool.false_eq_true, getElementById,
          List.find?]
        exact ih h

/-- The field list of a JS object (used to model object spread). -/
def jsObjectFields : JsValue → List (String × JsValue)
  | .obj fs => fs
  | _ => []

/-!  The pure example functions (`src/js/concepts/arrays.js` and the
variables/functions concept files).  Each is a straight-line sequence of
`output +=` appends; consecutive appends are translated to one concatenation,
and every interpolated expression is bound to a name first.  The two number
literals that are only ever displayed (`PI = 3.14159`, `height = 5.9`) are
carried as the strings JS renders them to; all numbers that are computed with
are integers.  Apostrophes inside the displayed text are written `\x27`. -/

/-- `variablesExample()` from the variables concept file. -/
def variablesExample : String :=
  let message := "Hello World"
  let PI := "3.14159"
  let oldWay := "Legacy var declaration"
  let firstName := "John"
  let lastName := "Doe"
  let fullName := s!"{firstName} {lastName}"
  let age : Int := 25
  let height := "5.9"
  let isAdult := decide (age ≥ 18)
  let colors := JsValue.arr [.str "red", .str "green", .str "blue"]
  let colorsJson := jsonStringify colors
  let person := JsValue.obj
    [("name", .str "Jane"), ("age", .num 30), ("city", .str "New York")]
  let personJson := jsonStringify2 person
  let typeofFirstName := jsTypeof (.str firstName)
  let typeofAge := jsTypeof (.num age)
  let typeofColors := jsTypeof colors
  let isArrayColors := jsIsArray colors
  let numString := "42"
  let convertedNum : Int := (numString.toInt?).getD 0
  let backToString := toString convertedNum
  let typeofConvertedNum := jsTypeof (.num convertedNum)
  let typeofBackToString := jsTypeof (.str backToString)
  let temperature : Int := 72
  let weather := "sunny"
  let forecast := s!"Today\x27s weather is {weather} with a temperature of {temperature}°F"
  "=== VARIABLES & DATA TYPES ===\n\n" ++
  ("1. Variable Declarations:\n"
    ++ s!"   let message: {message}\n"
    ++ s!"   const PI: {PI}\n"
    ++ s!"   var oldWay: {oldWay}\n\n"
    ++ "2. Data Types:\n"
    ++ s!"   String: {fullName}\n"
    ++ s!"   Number: age={age}, height={height}\n"
    ++ s!"   Boolean: isAdult={isAdult}\n"
    ++ s!"   Array: {colorsJson}\n"
    ++ s!"   Object: {personJson}\n"
    ++ "\n3. Type Checking:\n"
    ++ s!"   typeof firstName: {typeofFirstName}\n"
    ++ s!"   typeof age: {typeofAge}\n"
    ++ s!"   typeof colors: {typeofColors}\n"
    ++ s!"   Array.isArray(colors): {isArrayColors}\n"
    ++ "\n4. Type Conversion:\n"
    ++ s!"   String to Number: \"{numString}\" → {convertedNum} ({typeofConvertedNum})\n"
    ++ s!"   Number to String: {convertedNum} → \"{backToString}\" ({typeofBackToString})\n"
    ++ "\n5. Template Literals:\n"
    ++ s!"   {forecast}\n")

/-- `functionsExample()` from `src/js/concepts/functions.js`. -/
def functionsExample : String :=
  let greet := fun (name : String) => s!"Hello, {name}!"
  let greetAlice := greet "Alice"
  let add := fun (a b : Int) => a + b
  let addRes := add 5 3
  let multiply := fun (a b : Int) => a * b
  let square := fun (x : Int) => x * x
  let getFullName := fun (firstName lastName : String) => s!"{firstName} {lastName}"
  let multiplyRes := multiply 4 6
  let squareRes := square 7
  let fullNameRes := getFullName "Bob" "Smith"
  let createUser := fun (name : String) (age? : Option Int) (city? : Option String) =>
    JsValue.obj [("name", .str name), ("age", .num (age?.getD 18)),
      ("city", .str (city?.getD "Unknown"))]
  let createUserCharlie := jsonStringify (createUser "Charlie" none none)
  let createUserDiana := jsonStringify (createUser "Diana" (some 25) none)
  let sum := fun (numbers : List Int) =>
    numbers.foldl (fun total num => total + num) 0
  let sumRes := sum [1, 2, 3, 4, 5]
  let processUser := fun (user : JsValue) =>
    let name := jsToString (jsGet user "name")
    let age := jsToString (jsGet user "age")
    let email :=
      match user with
      | .obj fs =>
          match fs.find? (fun (kv : String × JsValue) => kv.1 == "email") with
          | some kv => jsToString kv.2
          | none => "N/A"
      | _ => "N/A"
    s!"User: {name}, Age: {age}, Email: {email}"
  let user := JsValue.obj [("name", .str "Eve"), ("age", .num 28)]
  let processUserRes := processUser user
  let createMultiplier := fun (factor : Int) => fun (number : Int) => number * factor
  let double := createMultiplier 2
  let triple := createMultiplier 3
  let doubleRes := double 8
  let tripleRes := triple 8
  let result :=
    let secret := "This is private"
    s!"IIFE executed: {secret}"
  let numbers : List Int := [1, 2, 3, 4, 5]
  let doubled := numbers.map (fun num => num * 2)
  let evens := numbers.filter (fun num => num % 2 == 0)
  let numbersStr := String.intercalate "," (numbers.map toString)
  let doubledStr := String.intercalate "," (doubled.map toString)
  let evensStr := String.intercalate "," (evens.map toString)
  "=== FUNCTIONS ===\n\n" ++
  ("1. Function Declarations:\n"
    ++ s!"   greet(\x27Alice\x27): {greetAlice}\n"
    ++ "\n2. Function Expressions:\n"
    ++ s!"   add(5, 3): {addRes}\n"
    ++ "\n3. Arrow Functions:\n"
    ++ s!"   multiply(4, 6): {multiplyRes}\n"
    ++ s!"   square(7): {squareRes}\n"
    ++ s!"   getFullName(\x27Bob\x27, \x27Smith\x27): {fullNameRes}\n"
    ++ "\n4. Default Parameters:\n"
    ++ s!"   createUser(\x27Charlie\x27): {createUserCharlie}\n"
    ++ s!"   createUser(\x27Diana\x27, 25): {createUserDiana}\n"
    ++ "\n5. Rest Parameters:\n"
    ++ s!"   sum(1, 2, 3, 4, 5): {sumRes}\n"
    ++ "\n6. Destructuring in Functions:\n"
    ++ s!"   processUser(user): {processUserRes}\n"
    ++ "\n7. Higher-Order Functions:\n"
    ++ s!"   double(8): {doubleRes}\n"
    ++ s!"   triple(8): {tripleRes}\n"
    ++ "\n8. IIFE (Immediately Invoked Function Expression):\n"
    ++ s!"   {result}\n"
    ++ "\n9. Callback Functions:\n"
    ++ s!"   Original: [{numbersStr}]\n"
    ++ s!"   Doubled: [{doubledStr}]\n"
    ++ s!"   Evens: [{evensStr}]\n")

/-- `arraysExample()` from `src/js/concepts/arrays.js`.  The `push` and
`unshift` mutations are translated to rebindings; array interpolation is
`join(",")`; `users.map(u => u.name)` etc. go through the JS property access
helpers. -/
def arraysExample : String :=
  let fruits0 := ["apple", "banana", "orange"]
  let fruits1 := fruits0 ++ ["grape"]
  let fruits := "strawberry" :: fruits1
  let fruitsStr := String.intercalate "," fruits
  let fruitsLen := fruits.length
  let fruitsFirst := fruits.headD ""
  let fruitsLast := fruits.getLastD ""
  let numbers : List Int := [1, 2, 3, 4, 5, 6, 7, 8, 9, 10]
  let doubled := numbers.map (fun num => num * 2)
  let evens := numbers.filter (fun num => num % 2 == 0)
  let sum := numbers.foldl (fun total num => total + num) 0
  let firstEven := numbers.find? (fun num => num % 2 == 0)
  let hasEven := numbers.any (fun num => num % 2 == 0)
  let allPositive := numbers.all (fun num => decide (num > 0))
  let numbersStr := String.intercalate "," (numbers.map toString)
  let doubledStr := String.intercalate "," (doubled.map toString)
  let evensStr := String.intercalate "," (evens.map toString)
  let firstEvenStr :=
    match firstEven with
    | some n => toString n
    | none => "undefined"
  let first := numbers.headD 0
  let second := (numbers.drop 1).headD 0
  let rest := numbers.drop 2
  let restStr := String.intercalate "," (rest.map toString)
  let person := JsValue.obj
    [("name", .str "John Doe"), ("age", .num 30), ("city", .str "New York"),
     ("hobbies", .arr [.str "reading", .str "swimming"]),
     ("address", .obj [("street", .str "123 Main St"), ("zipCode", .str "10001")])]
  let personJson := jsonStringify2 person
  let dynamicKey := "dynamicProperty"
  let obj := JsValue.obj
    [(dynamicKey, .str "This is dynamic"), ("regularProperty", .str "This is regular")]
  let objDynamic := jsToString (jsGet obj dynamicKey)
  let regularProperty := jsToString (jsGet obj "regularProperty")
  let methodCall := s!"Hello from {regularProperty}"
  let name := jsToString (jsGet person "name")
  let age := jsGetInt person "age"
  let city := jsToString (jsGet person "city")
  let otherProps := JsValue.obj
    [("hobbies", jsGet person "hobbies"), ("address", jsGet person "address")]
  let otherPropsJson := jsonStringify otherProps
  let originalArray : List Int := [1, 2, 3]
  let spreadArray := originalArray ++ [4, 5]
  let originalObject := JsValue.obj [("a", .num 1), ("b", .num 2)]
  let spreadObject := JsValue.obj
    (jsObjectFields originalObject ++ [("c", .num 3), ("d", .num 4)])
  let originalArrayStr := String.intercalate "," (originalArray.map toString)
  let spreadArrayStr := String.intercalate "," (spreadArray.map toString)
  let originalObjectJson := jsonStringify originalObject
  let spreadObjectJson := jsonStringify spreadObject
  let keys := jsObjectKeys person
  let values := jsObjectValues person
  let entries := jsObjectEntries person
  let keysStr := String.intercalate "," keys
  let valuesStr := jsToString (.arr values)
  let entriesJson := jsonStringify entries
  let users :=
    [JsValue.obj [("id", .num 1), ("name", .str "Alice"), ("age", .num 25)],
     JsValue.obj [("id", .num 2), ("name", .str "Bob"), ("age", .num 30)],
     JsValue.obj [("id", .num 3), ("name", .str "Charlie"), ("age", .num 35)]]
  let userNames := users.map (fun user => jsToString (jsGet user "name"))
  let adults := users.filter (fun user => decide (jsGetInt user "age" ≥ 30))
  let totalAge := users.foldl (fun sum user => sum + jsGetInt user "age") 0
  let usersJson := jsonStringify (.arr users)
  let userNamesStr := String.intercalate "," userNames
  let adultsJson := jsonStringify (.arr adults)
  "=== ARRAYS & OBJECTS ===\n\n" ++
  ("1. Array Creation & Manipulation:\n"
    ++ s!"   Original: [{fruitsStr}]\n"
    ++ s!"   Length: {fruitsLen}\n"
    ++ s!"   First element: {fruitsFirst}\n"
    ++ s!"   Last element: {fruitsLast}\n"
    ++ "\n2. Array Methods:\n"
    ++ s!"   map (double): [{doubledStr}]\n"
    ++ s!"   filter (evens): [{evensStr}]\n"
    ++ s!"   reduce (sum): {sum}\n"
    ++ s!"   find (first even): {firstEvenStr}\n"
    ++ s!"   some (has even): {hasEven}\n"
    ++ s!"   every (all positive): {allPositive}\n"
    ++ "\n3. Array Destructuring:\n"
    ++ s!"   [first, second, ...rest] = [{numbersStr}]\n"
    ++ s!"   first: {first}, second: {second}\n"
    ++ s!"   rest: [{restStr}]\n"
    ++ "\n4. Object Creation & Properties:\n"
    ++ s!"   Person object: {personJson}\n"
    ++ "\n5. Object Methods & Computed Properties:\n"
    ++ s!"   Dynamic key: {objDynamic}\n"
    ++ s!"   Method call: {methodCall}\n"
    ++ "\n6. Object Destructuring:\n"
    ++ s!"   Destructured: name={name}, age={age}, city={city}\n"
    ++ s!"   Other props: {otherPropsJson}\n"
    ++ "\n7. Spread Operator:\n"
    ++ s!"   Array spread: [{originalArrayStr}] → [{spreadArrayStr}]\n"
    ++ s!"   Object spread: {originalObjectJson} → {spreadObjectJson}\n"
    ++ "\n8. Object Methods:\n"
    ++ s!"   Object.keys(): [{keysStr}]\n"
    ++ s!"   Object.values(): [{valuesStr}]\n"
    ++ s!"   Object.entries(): {entriesJson}\n"
    ++ "\n9. Array & Object Combination:\n"
    ++ s!"   Users: {usersJson}\n"
    ++ s!"   Names: [{userNamesStr}]\n"
    ++ s!"   Adults: {adultsJson}\n"
    ++ s!"   Total age: {totalAge}\n")

/-!  The main entry point's button handlers (`src/js/main.js` /
`src/unnamed/part_003`, lines 26-117).  The state a handler touches is the
global `logger` instance and the DOM; both are threaded explicitly.  The two
`logger.info` calls in a handler each read the clock, so a handler takes the
two timestamps `t1`, `t2` as arguments. -/

/-- The mutable state a button handler works on: the global logger instance
and the DOM output elements. -/
structure AppState where
  logger : Logger
  dom : Dom

/-- `window.runVariablesExample`. -/
def runVariablesExample (t1 t2 : String) (st : AppState) : AppState :=
  let lg1 := st.logger.info t1 "Starting Variables Example" (some "variables") none
  let result := variablesExample
  let dom1 := updateOutput st.dom "variables-output" result
  let lg2 := lg1.info t2 "Variables Example completed" (some "variables")
    (some (.obj [("result", .str result)]))
  { logger := lg2, dom := dom1 }

/-- `window.runFunctionsExample`. -/
def runFunctionsExample (t1 t2 : String) (st : AppState) : AppState :=
  let lg1 := st.logger.info t1 "Starting Functions Example" (some "functions") none
  let result := functionsExample
  let dom1 := updateOutput st.dom "functions-output" result
  let lg2 := lg1.info t2 "Functions Example completed" (some "functions")
    (some (.obj [("result", .str result)]))
  { logger := lg2, dom := dom1 }

/-- `window.runArraysExample`. -/
def runArraysExample (t1 t2 : String) (st : AppState) : AppState :=
  let lg1 := st.logger.info t1 "Starting Arrays Example" (some "arrays") none
  let result := arraysExample
  let dom1 := updateOutput st.dom "arrays-output" result
  let lg2 := lg1.info t2 "Arrays Example completed" (some "arrays")
    (some (.obj [("result", .str result)]))
  { logger := lg2, dom := dom1 }

/-- `window.runAsyncExample`.  `await asyncExample()` either resolves with the
result string or rejects with an error whose `message` is a string; the
`Except` argument is that outcome.  The `try`/`catch` makes the handler total:
both branches produce a final state and nothing propagates to the caller. -/
def runAsyncExample (t1 t2 : String) (res : Except String String)
    (st : AppState) : AppState :=
  let lg1 := st.logger.info t1 "Starting Async Example" (some "async") none
  match res with
  | .ok result =>
      let dom1 := updateOutput st.dom "async-output" result
      let lg2 := lg1.info t2 "Async Example completed" (some "async")
        (some (.obj [("result", .str result)]))
      { logger := lg2, dom := dom1 }
  | .error emsg =>
      let lg2 := lg1.error t2 "Async Example failed" (some "async")
        (some (.obj [("error", .str emsg)]))
      let dom1 := updateOutput st.dom "async-output" ("Error: " ++ emsg)
      { logger := lg2, dom := dom1 }

/-- The user record `window.fetchUserData()` resolves with, as used by the
handler (`result.name`, `result.email`). -/
structure UserData where
  name : String
  email : String

/-- `window.runFetchUserData`.  `fetchUserData?` is `none` when
`typeof window.fetchUserData !== "function"` (the Promises Example has not
installed it), and `some outcome` when the function exists and awaiting it
gives `outcome`.  The returned `Bool` records whether `window.fetchUserData()`
was actually invoked (i.e. whether a fetch was performed). -/
def runFetchUserData (t1 t2 : String)
    (fetchUserData? : Option (Except String UserData)) (st : AppState) :
    AppState × Bool :=
  let lg1 := st.logger.info t1 "Starting Fetch User Data" (some "promises") none
  match fetchUserData? with
  | none =>
      let emsg := "fetchUserData function not available. Please run the Promises Example first."
      let lg2 := lg1.error t2 "Fetch User Data failed" (some "promises")
        (some (.obj [("error", .str emsg)]))
      let dom1 := updateOutput st.dom "promises-output" ("Error: " ++ emsg)
      ({ logger := lg2, dom := dom1 }, false)
  | some (.ok result) =>
      let dom1 := updateOutput st.dom "promises-output"
        ("User Data: " ++ result.name ++ " - " ++ result.email)
      let lg2 := lg1.info t2 "Fetch User Data completed" (some "promises")
        (some (.obj [("result", .obj [("name", .str result.name),
          ("email", .str result.email)])]))
      ({ logger := lg2, dom := dom1 }, true)
  | some (.error emsg) =>
      let lg2 := lg1.error t2 "Fetch User Data failed" (some "promises")
        (some (.obj [("error", .str emsg)]))
      let dom1 := updateOutput st.dom "promises-output" ("Error: " ++ emsg)
      ({ logger := lg2, dom := dom1 }, true)

/-- `window.runDOMExample`.  `domExample()` inspects and mutates the live
document and is not embedded; its returned string is passed in as `result`,
the same opaque-outcome abstraction as the awaited result in
`runAsyncExample`. -/
def runDOMExample (t1 t2 result : String) (st : AppState) : AppState :=
  let lg1 := st.logger.info t1 "Starting DOM Example" (some "dom") none
  let dom1 := updateOutput st.dom "dom-output" result
  let lg2 := lg1.info t2 "DOM Example completed" (some "dom")
    (some (.obj [("result", .str result)]))
  { logger := lg2, dom := dom1 }

/-- `window.runClosuresExample`.  `closuresExample()` comes from a concept
file not present under `src/`; its returned string is passed in as
`result`. -/
def runClosuresExample (t1 t2 result : String) (st : AppState) : AppState :=
  let lg1 := st.logger.info t1 "Starting Closures Example" (some "closures") none
  let dom1 := updateOutput st.dom "closures-output" result
  let lg2 := lg1.info t2 "Closures Example completed" (some "closures")
    (some (.obj [("result", .str result)]))
  { logger := lg2, dom := dom1 }

/-- `window.runPromisesExample`.  `promisesExample()` performs network calls
and installs the `window.fetch*` helpers as side effects; its returned string
is passed in as `result`. -/
def runPromisesExample (t1 t2 result : String) (st : AppState) : AppState :=
  let lg1 := st.logger.info t1 "Starting Promises Example" (some "promises") none
  let dom1 := updateOutput st.dom "promises-output" result
  let lg2 := lg1.info t2 "Promises Example completed" (some "promises")
    (some (.obj [("result", .str result)]))
  { logger := lg2, dom := dom1 }

/-- `window.runModernModulePatternExample`.  The example's returned string is
passed in as `result`. -/
def runModernModulePatternExample (t1 t2 result : String) (st : AppState) : AppState :=
  let lg1 := st.logger.info t1 "Starting Modern Module Pattern Example"
    (some "modern-module-pattern") none
  let dom1 := updateOutput st.dom "modern-module-pattern-output" result
  let lg2 := lg1.info t2 "Modern Module Pattern Example completed"
    (some "modern-module-pattern") (some (.obj [("result", .str result)]))
  { logger := lg2, dom := dom1 }

/-- `length` of a JS array value. -/
def jsArrayLength : JsValue → Nat
  | .arr es => es.length
  | _ => 0

/-- `window.runFetchMultipleData` (`src/unnamed/part_003`, lines 119-145),
shaped like `runFetchUserData`: `none` models
`typeof window.fetchMultipleData !== "function"`, `some outcome` the awaited
outcome, whose value is the raw API response object (`result.userData.title`,
`result.catFact.fact`, `result.quote.content` are read off it;
`.substring(0, 50)` is `String.take 50`).  The `Bool` records whether
`window.fetchMultipleData()` was invoked. -/
def runFetchMultipleData (t1 t2 : String)
    (fetchMultipleData? : Option (Except String JsValue)) (st : AppState) :
    AppState × Bool :=
  let lg1 := st.logger.info t1 "Starting Fetch Multiple Data" (some "promises") none
  match fetchMultipleData? with
  | none =>
      let emsg := "fetchMultipleData function not available. Please run the Promises Example first."
      let lg2 := lg1.error t2 "Fetch Multiple Data failed" (some "promises")
        (some (.obj [("error", .str emsg)]))
      let dom1 := updateOutput st.dom "promises-output" ("Error: " ++ emsg)
      ({ logger := lg2, dom := dom1 }, false)
  | some (.ok result) =>
      let title := jsToString (jsGet (jsGet result "userData") "title")
      let fact := jsToString (jsGet (jsGet result "catFact") "fact")
      let content := jsToString (jsGet (jsGet result "quote") "content")
      let dom1 := updateOutput st.dom "promises-output"
        ("Multiple Data: Post - " ++ title ++ ", Cat Fact - " ++ fact.take 50 ++
          "..., Quote - " ++ content.take 50 ++ "...")
      let lg2 := lg1.info t2 "Fetch Multiple Data completed" (some "promises")
        (some (.obj [("result", result)]))
      ({ logger := lg2, dom := dom1 }, true)
  | some (.error emsg) =>
      let lg2 := lg1.error t2 "Fetch Multiple Data failed" (some "promises")
        (some (.obj [("error", .str emsg)]))
      let dom1 := updateOutput st.dom "promises-output" ("Error: " ++ emsg)
      ({ logger := lg2, dom := dom1 }, true)

/-- `window.runChainAPICalls` (`src/unnamed/part_003`, lines 147-168), same
shape: the success branch reads `result.user.name`, `result.posts.length`
and `result.comments.length` off the raw response object. -/
def runChainAPICalls (t1 t2 : String)
    (chainAPICalls? : Option (Except String JsValue)) (st : AppState) :
    AppState × Bool :=
  let lg1 := st.logger.info t1 "Starting Chain API Calls" (some "promises") none
  match chainAPICalls? with
  | none =>
      let emsg := "chainAPICalls function not available. Please run the Promises Example first."
      let lg2 := lg1.error t2 "Chain API Calls failed" (some "promises")
        (some (.obj [("error", .str emsg)]))
      let dom1 := updateOutput st.dom "promises-output" ("Error: " ++ emsg)
      ({ logger := lg2, dom := dom1 }, false)
  | some (.ok result) =>
      let name := jsToString (jsGet (jsGet result "user") "name")
      let posts := jsArrayLength (jsGet result "posts")
      let comments := jsArrayLength (jsGet result "comments")
      let dom1 := updateOutput st.dom "promises-output"
        ("Chained API: User - " ++ name ++ ", Posts - " ++ toString posts ++
          ", Comments - " ++ toString comments)
      let lg2 := lg1.info t2 "Chain API Calls completed" (some "promises")
        (some (.obj [("result", result)]))
      ({ logger := lg2, dom := dom1 }, true)
  | some (.error emsg) =>
      let lg2 := lg1.error t2 "Chain API Calls failed" (some "promises")
        (some (.obj [("error", .str emsg)]))
      let dom1 := updateOutput st.dom "promises-output" ("Error: " ++ emsg)
      ({ logger := lg2, dom := dom1 }, true)

/-!  The development server configuration (`vite.config.js`). -/

/-- `server.watch` options. -/
structure WatchConfig where
  usePolling : Bool

/-- `server` options. -/
structure ServerConfig where
  port : Nat
  «open» : Bool
  liveReload : Bool
  watch : WatchConfig

/-- `build` options. -/
structure BuildConfig where
  outDir : String
  sourcemap : Bool

/-- The whole exported configuration object. -/
structure ViteConfig where
  server : ServerConfig
  build : BuildConfig

/-- The object passed to `defineConfig` in `vite.config.js` (`defineConfig`
itself is the identity on the configuration object). -/
def viteConfig : ViteConfig :=
  { server :=
      { port := 3000
        «open» := true
        liveReload := true
        watch := { usePolling := true } }
    build :=
      { outDir := "dist"
        sourcemap := true } }

/-!  The claims. -/

/-- C1: for every sequence of logging operations (`log`, `info`, `warn`,
`error`, `debug`) and `clear` applied to a `Logger` starting from its initial
state, the in-memory list of log entries never holds more than the fixed
maximum of 100 (`maxLogs`) entries. -/
theorem c1_logs_never_exceed_maxLogs (ops : List LoggerOp) :
    (applyOps ops).logs.length ≤ 100 := by
  obtain ⟨h1, h2⟩ := applyOps_inv ops
  rw [h1] at h2
  exact h2

/-- C2: `Logger.log` is append-and-evict-oldest-if-over-capacity.  On any
logger state satisfying the reachable-state invariant (the list holds at most
`maxLogs` entries; the capacity is positive — the real instance always has
`maxLogs = 100`), `log` appends the new entry at the end of the list; if the
list already held `maxLogs` entries exactly the oldest (first) entry is
removed, and otherwise no entry is removed. -/
theorem c2_log_append_evict (st : Logger)
    (h1 : st.logs.length ≤ st.maxLogs) (h2 : 0 < st.maxLogs)
    (timestamp level message : String) (sect? : Option String)
    (data? : Option JsValue) :
    (st.log timestamp level message sect? data?).logs =
      if st.logs.length = st.maxLogs
      then st.logs.tail ++ [mkLogEntry timestamp level message sect? data?]
      else st.logs ++ [mkLogEntry timestamp level message sect? data?] := by
  simp only [Logger.log]
  split
  next hgt =>
    have heq : st.logs.length = st.maxLogs := by
      simp at hgt
      omega
    rw [if_pos heq]
    have hne : st.logs ≠ [] := by
      intro hnil
      rw [hnil] at heq
      simp at heq
      omega
    obtain ⟨a, l, hl⟩ := List.exists_cons_of_ne_nil hne
    rw [hl]
    simp
  next hle =>
    have hne : ¬ st.logs.length = st.maxLogs := by
      simp at hle
      omega
    rw [if_neg hne]

/-- C2 witness: on the fresh logger (0 of 100 entries) the non-full branch
applies and the new entry is appended with no eviction. -/
theorem c2_witness :
    (Logger.new.log "t0" "info" "hello" none none).logs =
      [{ timestamp := "t0", level := "info", message := "hello",
         «section» := "general", data := JsValue.null }] := by
  have h := c2_log_append_evict Logger.new (by simp [Logger.new]) (by simp [Logger.new])
    "t0" "info" "hello" none none
  simpa [Logger.new, mkLogEntry] using h

/-- C3: every record stored by `Logger.log` — and by the convenience methods
`info`, `warn`, `error`, `debug`, which delegate to `log` with the matching
level — is exactly `{ timestamp, level, message, section, data }`, where
`section` defaults to `'general'` and `data` defaults to `null` when omitted
(`none` models an omitted argument); on a live logger (positive capacity) the
stored record sits at the end of the list. -/
theorem c3_entry_fields_and_defaults (st : Logger) (h : 0 < st.maxLogs)
    (timestamp level message : String) (sect? : Option String)
    (data? : Option JsValue) :
    (st.log timestamp level message sect? data?).logs.getLast? =
        some (mkLogEntry timestamp level message sect? data?)
      ∧ mkLogEntry timestamp level message sect? data? =
          { timestamp := timestamp, level := level, message := message,
            «section» := sect?.getD "general", data := data?.getD JsValue.null }
      ∧ mkLogEntry timestamp level message none none =
          { timestamp := timestamp, level := level, message := message,
            «section» := "general", data := JsValue.null }
      ∧ st.info timestamp message sect? data? = st.log timestamp "info" message sect? data?
      ∧ st.warn timestamp message sect? data? = st.log timestamp "warn" message sect? data?
      ∧ st.error timestamp message sect? data? = st.log timestamp "error" message sect? data?
      ∧ st.debug timestamp message sect? data? = st.log timestamp "debug" message sect? data? :=
  ⟨Logger.log_getLast st h timestamp level message sect? data?, rfl, rfl, rfl, rfl, rfl, rfl⟩

/-- C3 witness: the fresh logger stores the defaulted record. -/
theorem c3_witness :
    0 < Logger.new.maxLogs ∧
    (Logger.new.log "t0" "warn" "m" none none).logs.getLast? =
      some (mkLogEntry "t0" "warn" "m" none none) :=
  ⟨by decide, (c3_entry_fields_and_defaults Logger.new (by decide) "t0" "warn" "m" none none).1⟩

/-- C4: `variablesExample`, `functionsExample` and `arraysExample` are
functions of no state (their embeddings take no arguments, so each invocation
is independent of any other example having run) and each returns a string
beginning with its `=== ... ===` header. -/
theorem c4_examples_return_headed_strings :
    (∃ r, variablesExample = "=== VARIABLES & DATA TYPES ===\n\n" ++ r) ∧
    (∃ r, functionsExample = "=== FUNCTIONS ===\n\n" ++ r) ∧
    (∃ r, arraysExample = "=== ARRAYS & OBJECTS ===\n\n" ++ r) :=
  ⟨⟨_, rfl⟩, ⟨_, rfl⟩, ⟨_, rfl⟩⟩

/-- C5: when `asyncExample` rejects, `window.runAsyncExample` catches the
error (the handler is a total function of the outcome — nothing propagates to
the caller): it records an error-level entry for section `async` carrying the
error message, and writes `Error: <message>` to the async output element.
Hypotheses: the logger is live (positive capacity; the global instance has
100) and the `async-output` element exists. -/
theorem c5_async_handler_catches (t1 t2 emsg : String) (st : AppState)
    (hlog : 0 < st.logger.maxLogs)
    (t : String) (hdom : getElementById st.dom "async-output" = some t) :
    getElementById (runAsyncExample t1 t2 (Except.error emsg) st).dom "async-output" =
        some ("Error: " ++ emsg) ∧
    (runAsyncExample t1 t2 (Except.error emsg) st).logger.logs.getLast? =
        some { timestamp := t2, level := "error", message := "Async Example failed",
               «section» := "async", data := JsValue.obj [("error", JsValue.str emsg)] } := by
  constructor
  · show getElementById
      (updateOutput st.dom "async-output" ("Error: " ++ emsg)) "async-output" = _
    rw [updateOutput, hdom]
    exact getElementById_setTextContent st.dom "async-output" ("Error: " ++ emsg) t hdom
  · show ((st.logger.info t1 "Starting Async Example" (some "async") none).error t2
      "Async Example failed" (some "async")
      (some (JsValue.obj [("error", JsValue.str emsg)]))).logs.getLast? = _
    have hpos1 : 0 < (st.logger.info t1 "Starting Async Example" (some "async") none).maxLogs := by
      rw [Logger.info, Logger.log_maxLogs]
      exact hlog
    rw [Logger.error, Logger.log_getLast _ hpos1]
    rfl

/-- C5 witness: a concrete failing run writes the error text to the output
element. -/
theorem c5_witness :
    0 < (Logger.new).maxLogs ∧
    getElementById (runAsyncExample "t1" "t2" (Except.error "boom")
        { logger := Logger.new, dom := [("async-output", "")] }).dom "async-output" =
      some ("Error: " ++ "boom") :=
  ⟨by decide,
   (c5_async_handler_catches "t1" "t2" "boom"
      { logger := Logger.new, dom := [("async-output", "")] }
      (by decide) "" (by decide)).1⟩

/-- C6: every button handler forwards the example's return value to the DOM
text node via `updateOutput` — the result string becomes the `textContent` of
the `<section>-output` element, and when no element with that id exists the
handler changes no element.  The conjuncts cover `updateOutput` itself and
every forwarding handler: variables, functions, arrays, async, dom,
closures, promises, modern-module-pattern, and the success branches of the
`fetchUserData` / `fetchMultipleData` / `chainAPICalls` handlers with their
formatted result strings. -/
theorem c6_handlers_forward_to_dom :
    (∀ (dom : Dom) (elementId content : String),
        getElementById dom elementId = none →
        updateOutput dom elementId content = dom) ∧
    (∀ (dom : Dom) (elementId content t : String),
        getElementById dom elementId = some t →
        getElementById (updateOutput dom elementId content) elementId = some content) ∧
    (∀ t1 t2 st, (runVariablesExample t1 t2 st).dom =
        updateOutput st.dom "variables-output" variablesExample) ∧
    (∀ t1 t2 st, (runFunctionsExample t1 t2 st).dom =
        updateOutput st.dom "functions-output" functionsExample) ∧
    (∀ t1 t2 st, (runArraysExample t1 t2 st).dom =
        updateOutput st.dom "arrays-output" arraysExample) ∧
    (∀ t1 t2 result st, (runAsyncExample t1 t2 (Except.ok result) st).dom =
        updateOutput st.dom "async-output" result) ∧
    (∀ t1 t2 result st, (runDOMExample t1 t2 result st).dom =
        updateOutput st.dom "dom-output" result) ∧
    (∀ t1 t2 result st, (runClosuresExample t1 t2 result st).dom =
        updateOutput st.dom "closures-output" result) ∧
    (∀ t1 t2 result st, (runPromisesExample t1 t2 result st).dom =
        updateOutput st.dom "promises-output" result) ∧
    (∀ t1 t2 result st, (runModernModulePatternExample t1 t2 result st).dom =
        updateOutput st.dom "modern-module-pattern-output" result) ∧
    (∀ t1 t2 r st, (runFetchUserData t1 t2 (some (Except.ok r)) st).1.dom =
        updateOutput st.dom "promises-output"
          ("User Data: " ++ r.name ++ " - " ++ r.email)) ∧
    (∀ t1 t2 result st, (runFetchMultipleData t1 t2 (some (Except.ok result)) st).1.dom =
        updateOutput st.dom "promises-output"
          ("Multiple Data: Post - " ++ jsToString (jsGet (jsGet result "userData") "title") ++
            ", Cat Fact - " ++ (jsToString (jsGet (jsGet result "catFact") "fact")).take 50 ++
            "..., Quote - " ++ (jsToString (jsGet (jsGet result "quote") "content")).take 50 ++
            "...")) ∧
    (∀ t1 t2 result st, (runChainAPICalls t1 t2 (some (Except.ok result)) st).1.dom =
        updateOutput st.dom "promises-output"
          ("Chained API: User - " ++ jsToString (jsGet (jsGet result "user") "name") ++
            ", Posts - " ++ toString (jsArrayLength (jsGet result "posts")) ++
            ", Comments - " ++ toString (jsArrayLength (jsGet result "comments")))) := by
  refine ⟨updateOutput_none, ?_, fun t1 t2 st => rfl, fun t1 t2 st => rfl,
    fun t1 t2 st => rfl, fun t1 t2 result st => rfl, fun t1 t2 result st => rfl,
    fun t1 t2 result st => rfl, fun t1 t2 result st => rfl, fun t1 t2 result st => rfl,
    fun t1 t2 r st => rfl, fun t1 t2 result st => rfl, fun t1 t2 result st => rfl⟩
  intro dom elementId content t hfound
  rw [updateOutput, hfound]
  exact getElementById_setTextContent dom elementId content t hfound

/-- C6 witness: a DOM without the target element is unchanged; an existing
element receives the new text. -/
theorem c6_witness :
    updateOutput [("other", "x")] "variables-output" "c" = [("other", "x")] ∧
    getElementById (updateOutput [("async-output", "old")] "async-output" "new")
      "async-output" = some "new" :=
  ⟨c6_handlers_forward_to_dom.1 [("other", "x")] "variables-output" "c" (by decide),
   c6_handlers_forward_to_dom.2.1 [("async-output", "old")] "async-output" "new" "old"
     (by decide)⟩

/-- C7: the exported vite config sets `server.port = 3000`, enables live
reload, opens the browser on start and enables polling-based file watching. -/
theorem c7_vite_server_config :
    viteConfig.server.port = 3000 ∧ viteConfig.server.liveReload = true ∧
    viteConfig.server.«open» = true ∧ viteConfig.server.watch.usePolling = true :=
  ⟨rfl, rfl, rfl, rfl⟩

/-- C8: the observers are frame-preserving: `getLogs`, `getLogsForSection`
and `exportLogs` leave the logger's stored array unchanged, and `getLogs`
returns a *fresh* array (a different reference), so mutating the returned
array does not change what the logger stores — hence no subsequent logger
operation's result.  The hypothesis says the logger's array reference is a
live heap cell. -/
theorem c8_observers_frame (lg : LoggerRef) (h : JsHeap)
    (hr : lg.logsRef < List.length h) (sect : String) (v : List LogEntry) :
    heapRead (lg.getLogs h).2 lg.logsRef = heapRead h lg.logsRef ∧
    heapRead (lg.getLogsForSection sect h).2 lg.logsRef = heapRead h lg.logsRef ∧
    (lg.exportLogs h).2 = h ∧
    (lg.getLogs h).1 ≠ lg.logsRef ∧
    heapRead (heapWrite (lg.getLogs h).2 (lg.getLogs h).1 v) lg.logsRef =
      heapRead h lg.logsRef := by
  have hne : (lg.getLogs h).1 ≠ lg.logsRef := by
    simp only [LoggerRef.getLogs, heapAlloc]
    omega
  refine ⟨heapRead_alloc _ _ _ hr, heapRead_alloc _ _ _ hr, rfl, hne, ?_⟩
  rw [heapRead_write_ne _ _ _ _ hne]
  exact heapRead_alloc _ _ _ hr

/-- C8 witness: on a one-cell heap, `getLogs` leaves the stored cell as it
was. -/
theorem c8_witness :
    (0 : Nat) < List.length ([[]] : JsHeap) ∧
    heapRead ((LoggerRef.mk 0).getLogs [[]]).2 0 = heapRead ([[]] : JsHeap) 0 :=
  ⟨by decide, (c8_observers_frame ⟨0⟩ [[]] (by decide) "s" []).1⟩

/-- C9: `getLogsForSection(s)` returns exactly the entries of `getLogs()`
whose `section` field equals `s`, in insertion order — both in the heap model
(reading the arrays the two observers return) and in the pure state model. -/
theorem c9_getLogsForSection_filters_getLogs (lg : LoggerRef) (h : JsHeap)
    (sect : String) :
    heapRead (lg.getLogsForSection sect h).2 (lg.getLogsForSection sect h).1 =
        (heapRead (lg.getLogs h).2 (lg.getLogs h).1).filter
          (fun l => l.«section» == sect)
      ∧ ∀ st : Logger, st.getLogsForSection sect =
          st.getLogs.filter (fun l => l.«section» == sect) := by
  constructor
  · rw [LoggerRef.getLogsForSection, LoggerRef.getLogs, heapRead_alloc_new,
      heapRead_alloc_new]
  · intro st
    rfl

/-- C10: when `window.fetchUserData` is not a function, `runFetchUserData`
performs no fetch (the flag is `false`), writes
`Error: fetchUserData function not available. Please run the Promises Example
first.` to the promises output element, and records an error-level entry —
the thrown error is caught by the handler's own `try`/`catch` (the model is a
total function), so nothing escapes. -/
theorem c10_fetch_user_data_missing_dep (t1 t2 : String) (st : AppState)
    (hlog : 0 < st.logger.maxLogs) (t : String)
    (hdom : getElementById st.dom "promises-output" = some t) :
    (runFetchUserData t1 t2 none st).2 = false ∧
    getElementById (runFetchUserData t1 t2 none st).1.dom "promises-output" =
      some ("Error: " ++
        "fetchUserData function not available. Please run the Promises Example first.") ∧
    (runFetchUserData t1 t2 none st).1.logger.logs.getLast? =
      some { timestamp := t2, level := "error", message := "Fetch User Data failed",
             «section» := "promises",
             data := JsValue.obj [("error", JsValue.str
               "fetchUserData function not available. Please run the Promises Example first.")] } := by
  refine ⟨rfl, ?_, ?_⟩
  · show getElementById (updateOutput st.dom "promises-output" _) "promises-output" = _
    rw [updateOutput, hdom]
    exact getElementById_setTextContent st.dom "promises-output" _ t hdom
  · show ((st.logger.info t1 "Starting Fetch User Data" (some "promises") none).error t2
      "Fetch User Data failed" (some "promises")
      (some (JsValue.obj [("error", JsValue.str
        "fetchUserData function not available. Please run the Promises Example first.")]))).logs.getLast? = _
    have hpos1 : 0 < (st.logger.info t1 "Starting Fetch User Data" (some "promises") none).maxLogs := by
      rw [Logger.info, Logger.log_maxLogs]
      exact hlog
    rw [Logger.error, Logger.log_getLast _ hpos1]
    rfl

/-- C10 witness: a concrete run with the dependency missing performs no
fetch. -/
theorem c10_witness :
    0 < (Logger.new).maxLogs ∧
    (runFetchUserData "t1" "t2" none
      { logger := Logger.new, dom := [("promises-output", "")] }).2 = false :=
  ⟨by decide,
   (c10_fetch_user_data_missing_dep "t1" "t2"
      { logger := Logger.new, dom := [("promises-output", "")] }
      (by decide) "" (by decide)).1⟩
